import Mathlib

/-!
Verification of the maneuver-node execution engine (`NodeExecutor.py`).

The development has two layers.

* A rational, executable layer models the control flow of the burn
  controller and the execution supervisor: the actuator/telemetry commands
  issued by `_throttle_manager`, `_auto_stage`, `_burn_loop`,
  `align_to_burn`, `warp_safely_to_burn` and `execute_node` are recorded as
  explicit command traces.  Telemetry readings (attitude error, remaining
  delta-v, available thrust) are modelled as streams indexed by the loop
  iteration number, matching the polled stream reads of the source.

* A real-valued layer models the burn physics (`burn_time_at_max_thrust`,
  `maximum_throttle`, `burn_time`, `burn_ut`), with the source's floating
  point numbers modelled as real numbers and `math.exp` as `Real.exp`.
  Divisions that can raise `ZeroDivisionError` in the source are modelled
  by an `Except`-valued variant (`checkedDiv`), so that the error behavior
  of zero thrust / zero specific impulse is itself a theorem.
-/

/-- A command issued to the vehicle telemetry port, or an observable
event of the controller.  Each constructor corresponds to one kind of
side effect performed by `NodeExecutor`. -/
inductive Cmd where
  | setThrottle (v : ℚ)
  | sleepAction (t : ℚ)
  | stageAction
  | printEvent (msg : String)
  | openStream (name : String)
  | closeStream (name : String)
  | setAttitudeTarget
  | engageAutopilot
  | autopilotWait
  | disengageAutopilot
  | warpTo (t : ℚ)
  | waitUntil (t : ℚ)
  | removeNode
  deriving DecidableEq

/-- A maneuver node: burn vector magnitude `delta_v` and universal time
`ut` (the fields of the kRPC node object read by `NodeExecutor`). -/
structure ManeuverNode where
  delta_v : ℚ
  ut : ℚ
  deriving DecidableEq

/-- The environment of one `execute_node` run: the vessel's node list and
the telemetry streams polled during the burn loop, each indexed by the
iteration counter.  `thrust_read` is the `available_thrust` read at the
auto-stage check of an iteration and `thrust_post` the fresh read returned
at the end of `_auto_stage` (they may differ when staging occurs).
`max_throttle_q` is the value of the `maximum_throttle` property at each
iteration and `burn_time_q` the value of the `burn_time` property; both
are computed by the real-valued physics layer below and enter the
rational control-flow layer as environment data. -/
structure Env where
  nodes : List ManeuverNode
  ut : ℚ
  error : ℕ → ℚ
  dV_left : ℕ → ℚ
  thrust_read : ℕ → ℚ
  thrust_post : ℕ → ℚ
  max_throttle_q : ℕ → ℚ
  thrust_entry : ℚ
  burn_time_q : ℚ
  fuel : ℕ

/-- `NodeExecutor.node`: the first node of `vessel.control.nodes`, or
`none` when the list is empty (the `IndexError` branch). -/
def node? (nodes : List ManeuverNode) : Option ManeuverNode :=
  nodes.head?

/-- `NodeExecutor.has_node`: whether the active vessel has a next node. -/
def has_node (nodes : List ManeuverNode) : Bool :=
  (node? nodes).isSome

/-- `NodeExecutor._clamp`: clamps the value between the ceiling and the
floor (`top = max(ceiling, floor)`, `bottom = min(ceiling, floor)`,
result `max(bottom, min(top, value))`). -/
def clamp {α : Type} [LinearOrder α] (value floor ceiling : α) : α :=
  max (min ceiling floor) (min (max ceiling floor) value)

/-- The throttle taper of the specification: the clamp applied on line
161 of the source, `clamp(dV_ratio * 10, floor=0.05, ceiling=1)`. -/
def throttle_taper (r : ℚ) : ℚ :=
  clamp (r * 10) 0.05 1

/-- `NodeExecutor._throttle_manager`: the throttle value written for a
given `maximum_throttle`, node `delta_v`, and remaining `dV_left`. -/
def throttle_manager (max_throttle delta_v dV_left : ℚ) : ℚ :=
  max_throttle * clamp (dV_left / delta_v * 10) 0.05 1

/-- `NodeExecutor._auto_stage`: given the recorded baseline `old_thrust`,
the fresh `available_thrust` reading `thrust_now`, the reading
`thrust_after` returned at the end of the call, and the current throttle
`old_throttle`, returns the new baseline together with the trace of
commands issued.  The division `available_thrust / old_thrust` is guarded
by the `except ZeroDivisionError` of the source, which forces the ratio
to 1. -/
def auto_stage (old_thrust thrust_now thrust_after old_throttle : ℚ) :
    ℚ × List Cmd :=
  let r := if old_thrust = 0 then 1 else thrust_now / old_thrust
  if r < 0.9 then
    (thrust_after,
      [Cmd.setThrottle 0, Cmd.sleepAction 0.1, Cmd.stageAction,
       Cmd.printEvent "Staged", Cmd.sleepAction 0.1,
       Cmd.setThrottle old_throttle])
  else
    (thrust_after, [])

/-- `NodeExecutor._is_burn_complete`: true when it's time to shut down
the engines, i.e. when the autopilot attitude error exceeds 20 degrees. -/
def is_burn_complete (error : ℚ) : Bool :=
  error > 20

/-- The body of `NodeExecutor._burn_loop` with the two stream `with`
blocks already entered: at iteration `k` with auto-stage baseline
`baseline`, test `_is_burn_complete` on the error stream; on exit the
inner `with` closes the `remaining_delta_v` stream, the outer `with`
closes the `error` stream, and then the throttle is zeroed; otherwise run
`_throttle_manager`, `_auto_stage`, `_wait_to_go_around_again` and
recurse.  `fuel` bounds the number of modelled iterations; an exhausted
fuel yields no exit commands (the run is still inside the loop). -/
def burn_loop_go (env : Env) (delta_v : ℚ) :
    ℕ → ℕ → ℚ → List Cmd
  | 0, _, _ => []
  | fuel + 1, k, baseline =>
    if is_burn_complete (env.error k) then
      [Cmd.closeStream "remaining_delta_v", Cmd.closeStream "error",
       Cmd.setThrottle 0]
    else
      let t := throttle_manager (env.max_throttle_q k) delta_v (env.dV_left k)
      let staged := auto_stage baseline (env.thrust_read k) (env.thrust_post k) t
      Cmd.setThrottle t ::
        (staged.2 ++ Cmd.sleepAction 0.01 ::
          burn_loop_go env delta_v fuel (k + 1) staged.1)

/-- `NodeExecutor._burn_loop`: open the `error` and `remaining_delta_v`
streams, record the initial `available_thrust` baseline, and run the
loop. -/
def burn_loop (env : Env) (delta_v : ℚ) : List Cmd :=
  Cmd.openStream "error" :: Cmd.openStream "remaining_delta_v" ::
    burn_loop_go env delta_v env.fuel 0 env.thrust_entry

/-- `NodeExecutor.align_to_burn`: with no node, the alignment message
formatting dereferences `self.node.ut` on `None` and raises
`AttributeError` before any autopilot command is issued; with a node it
prints, configures the autopilot target, engages, sleeps 0.1 s and waits
for convergence. -/
def align_to_burn (env : Env) : List Cmd × Except String Unit :=
  match node? env.nodes with
  | none => ([], Except.error "AttributeError")
  | some _ =>
      ([Cmd.printEvent "Aligning", Cmd.setAttitudeTarget,
        Cmd.engageAutopilot, Cmd.sleepAction 0.1, Cmd.autopilotWait],
       Except.ok ())

/-- `NodeExecutor.burn_ut` at the rational layer: the node's universal
time minus half the burn time (the latter supplied by the physics
layer through the environment). -/
def burn_ut_q (env : Env) (n : ManeuverNode) : ℚ :=
  n.ut - env.burn_time_q / 2

/-- `NodeExecutor.warp_safely_to_burn`: warp to `margin` seconds before
`burn_ut`, a no-op when the current universal time is already past that
threshold. -/
def warp_safely_to_burn (env : Env) (n : ManeuverNode) (margin : ℚ) :
    List Cmd :=
  let warp_time := burn_ut_q env n - margin
  if env.ut < warp_time then
    [Cmd.printEvent "Warping", Cmd.warpTo warp_time]
  else
    []

/-- `NodeExecutor.wait_until_ut`: block until the universal time reaches
the threshold. -/
def wait_until_ut (t : ℚ) : List Cmd :=
  [Cmd.waitUntil t]

/-- `NodeExecutor._cleanup`: disengage the autopilot and remove the
node. -/
def cleanup : List Cmd :=
  [Cmd.disengageAutopilot, Cmd.removeNode]

/-- `NodeExecutor.burn_baby_burn`: print `Ignition`, run the burn loop,
print `MECO` and the remaining delta-v report, then clean up. -/
def burn_baby_burn (env : Env) (n : ManeuverNode) : List Cmd :=
  Cmd.printEvent "Ignition" ::
    (burn_loop env n.delta_v ++
      (Cmd.printEvent "MECO" :: Cmd.printEvent "BurnError" :: cleanup))

/-- `NodeExecutor.approach_margins`: the coarse and fine approach
margins, `[180, 5]`. -/
def approach_margins : List ℚ :=
  [180, 5]

/-- One pass of the approach loop inside `execute_node`: align to the
burn, then warp to the given margin.  An `AttributeError` raised while
aligning (no node) aborts the pass. -/
def approach_step (env : Env) (margin : ℚ) : List Cmd × Except String Unit :=
  match align_to_burn env with
  | (a, Except.error e) => (a, Except.error e)
  | (a, Except.ok _) =>
      match node? env.nodes with
      | none => (a, Except.error "AttributeError")
      | some n => (a ++ warp_safely_to_burn env n margin, Except.ok ())

/-- The `for approach_margin in self.approach_margins` loop of
`execute_node`, propagating a raised error. -/
def approach (env : Env) : List ℚ → List Cmd × Except String Unit
  | [] => ([], Except.ok ())
  | m :: rest =>
    match approach_step env m with
    | (a, Except.error e) => (a, Except.error e)
    | (a, Except.ok _) =>
        let tail := approach env rest
        (a ++ tail.1, tail.2)

/-- `NodeExecutor.execute_node`: approach the node for each configured
margin, wait until the burn start time, and run `burn_baby_burn`.  The
result is the trace of commands issued together with either normal
completion or the exception raised. -/
def execute_node (env : Env) : List Cmd × Except String Unit :=
  match approach env approach_margins with
  | (a, Except.error e) => (a, Except.error e)
  | (a, Except.ok _) =>
      match node? env.nodes with
      | none => (a, Except.error "AttributeError")
      | some n =>
          (a ++ wait_until_ut (burn_ut_q env n) ++ burn_baby_burn env n,
           Except.ok ())

/-- The vehicle/node state read by the physics properties of
`NodeExecutor`: the vessel's `available_thrust`, `specific_impulse` and
`mass`, the node's `delta_v` and `ut`, and the configured
`minimum_burn_time`.  Floating point values are modelled as reals. -/
structure NodeExecutor where
  available_thrust : ℝ
  specific_impulse : ℝ
  mass : ℝ
  node_delta_v : ℝ
  node_ut : ℝ
  minimum_burn_time : ℝ

/-- `NodeExecutor.burn_time_at_max_thrust`: burn time at max thrust from
the rocket equation, `Isp = specific_impulse * 9.82`,
`m1 = m0 / exp(delta_v / Isp)`, `flow_rate = F / Isp`,
result `(m0 - m1) / flow_rate`. -/
noncomputable def burn_time_at_max_thrust (s : NodeExecutor) : ℝ :=
  let F := s.available_thrust
  let Isp := s.specific_impulse * 9.82
  let m0 := s.mass
  let m1 := m0 / Real.exp (s.node_delta_v / Isp)
  let flow_rate := F / Isp
  (m0 - m1) / flow_rate

/-- `NodeExecutor.maximum_throttle`: 1 when `minimum_burn_time` is 0,
otherwise `min(1, burn_time_at_max_thrust / minimum_burn_time)`. -/
noncomputable def maximum_throttle (s : NodeExecutor) : ℝ :=
  if s.minimum_burn_time = 0 then 1
  else min 1 (burn_time_at_max_thrust s / s.minimum_burn_time)

/-- `NodeExecutor.burn_time`: the burn time based on maximum throttle,
`max(burn_time_at_max_thrust, minimum_burn_time)`. -/
noncomputable def burn_time (s : NodeExecutor) : ℝ :=
  max (burn_time_at_max_thrust s) s.minimum_burn_time

/-- `NodeExecutor.burn_ut`: the time to start the burn,
`node.ut - burn_time / 2`. -/
noncomputable def burn_ut (s : NodeExecutor) : ℝ :=
  s.node_ut - burn_time s / 2

/-- Division as performed by the Python runtime: raises
`ZeroDivisionError` when the divisor is zero. -/
noncomputable def checkedDiv (a b : ℝ) : Except String ℝ :=
  if b = 0 then Except.error "ZeroDivisionError" else Except.ok (a / b)

/-- `burn_time_at_max_thrust` with each division checked, reflecting
where the source can raise `ZeroDivisionError` (there is no guard in the
source for this property). -/
noncomputable def burn_time_at_max_thrust_checked (s : NodeExecutor) :
    Except String ℝ :=
  match checkedDiv s.node_delta_v (s.specific_impulse * 9.82) with
  | Except.error e => Except.error e
  | Except.ok r =>
    match checkedDiv s.mass (Real.exp r) with
    | Except.error e => Except.error e
    | Except.ok m1 =>
      match checkedDiv s.available_thrust (s.specific_impulse * 9.82) with
      | Except.error e => Except.error e
      | Except.ok flow_rate => checkedDiv (s.mass - m1) flow_rate

/-- `maximum_throttle` with each division checked: the
`minimum_burn_time = 0` branch returns 1 without evaluating
`burn_time_at_max_thrust`. -/
noncomputable def maximum_throttle_checked (s : NodeExecutor) :
    Except String ℝ :=
  if s.minimum_burn_time = 0 then Except.ok 1
  else
    match burn_time_at_max_thrust_checked s with
    | Except.error e => Except.error e
    | Except.ok t =>
      match checkedDiv t s.minimum_burn_time with
      | Except.error e => Except.error e
      | Except.ok q => Except.ok (min 1 q)

/-- `NodeExecutor._throttle_manager` with each division checked: the
`dV_ratio` division happens first, then the clamp, then the
`maximum_throttle` property is evaluated for the final product, exactly
as on lines 159-163 of the source. -/
noncomputable def throttle_manager_checked (s : NodeExecutor)
    (dV_left : ℝ) : Except String ℝ :=
  match checkedDiv dV_left s.node_delta_v with
  | Except.error e => Except.error e
  | Except.ok r =>
    let throttle := clamp (r * 10) (0.05 : ℝ) 1
    match maximum_throttle_checked s with
    | Except.error e => Except.error e
    | Except.ok mt => Except.ok (mt * throttle)

/-- A run with perfect attitude (error stream constantly 0) whose
remaining delta-v decays to 0 by iteration 1 and stays there. -/
def envPerfect : Env :=
  ⟨[⟨10, 2000⟩], 1980, fun _ => 0, fun k => if k = 0 then 1 else 0,
   fun _ => 100, fun _ => 100, fun _ => 1, 100, 30, 6⟩

/-- A run whose attitude error reads 30 degrees from the start, so the
burn loop exits at its very first check. -/
def envAbort : Env :=
  ⟨[⟨10, 2000⟩], 1980, fun _ => 30, fun _ => 10,
   fun _ => 100, fun _ => 100, fun _ => 1, 100, 30, 3⟩

/-- A state with no maneuver node left on the vessel. -/
def envNoNode : Env :=
  ⟨[], 1980, fun _ => 0, fun _ => 10,
   fun _ => 100, fun _ => 100, fun _ => 1, 100, 30, 3⟩

/-- The vehicle/node state of the existing test corpus
(`thrust=100, Isp=200, mass=300, delta_v=10, ut=2000`, minimum burn
time 4) but with the available thrust reading zero. -/
noncomputable def sZeroThrust : NodeExecutor :=
  ⟨0, 200, 300, 10, 2000, 4⟩

/-- The vehicle/node state of the existing test corpus:
`thrust=100, Isp=200, mass=300, delta_v=10, ut=2000`, minimum burn
time 4. -/
noncomputable def sTest : NodeExecutor :=
  ⟨100, 200, 300, 10, 2000, 4⟩

/-- The test-corpus state with a zero delta-v node. -/
noncomputable def sZeroDv : NodeExecutor :=
  ⟨100, 200, 300, 0, 2000, 4⟩

/-- The taper written on line 161 of the source, in closed form:
`max 0.05 (min 1 (r * 10))`. -/
theorem throttle_taper_eq (r : ℚ) :
    throttle_taper r = max 0.05 (min 1 (r * 10)) := by
  unfold throttle_taper clamp
  rw [min_eq_right (by norm_num : (0.05 : ℚ) ≤ 1),
    max_eq_left (by norm_num : (0.05 : ℚ) ≤ 1)]

/-- C10: the clamp helper is insensitive to the order of its bounds: the
result lies between `min floor ceiling` and `max floor ceiling`, equals
the value when the value is within those bounds, and swapping the bounds
leaves the result unchanged. -/
theorem c10_clamp (v f c : ℚ) :
    min f c ≤ clamp v f c ∧ clamp v f c ≤ max f c ∧
    (min f c ≤ v → v ≤ max f c → clamp v f c = v) ∧
    clamp v f c = clamp v c f := by
  unfold clamp
  refine ⟨?_, ?_, ?_, ?_⟩
  · rw [min_comm f c]
    exact le_max_left _ _
  · exact max_le (le_trans (min_le_left c f) (le_max_right f c))
      (le_trans (min_le_left _ _) (le_of_eq (max_comm c f)))
  · intro h1 h2
    rw [max_comm c f, min_comm c f, min_eq_right h2, max_eq_right h1]
  · rw [min_comm c f, max_comm c f]

/-- Witness for C10 at `value = 3`, `floor = 1`, `ceiling = 5`. -/
theorem c10_clamp_witness :
    min (1 : ℚ) 5 ≤ 3 ∧ (3 : ℚ) ≤ max 1 5 ∧ clamp (3 : ℚ) 1 5 = 3 :=
  ⟨by decide, by decide, (c10_clamp 3 1 5).2.2.1 (by decide) (by decide)⟩

/-- C7: the throttle taper is clamped to `[0.05, 1]`, equals
`dv_ratio * 10` whenever that product lies between 0.05 and 1, equals 1
for every ratio at least 1, is monotonically non-decreasing, and the
throttle written by `_throttle_manager` each iteration of the burn loop
is `maximum_throttle` times the taper of the delta-v ratio. -/
theorem c7_throttle_taper (r r' mt dv l dvq b : ℚ) (env : Env)
    (fuel k : ℕ) :
    (0.05 ≤ throttle_taper r ∧ throttle_taper r ≤ 1) ∧
    (0.05 ≤ r * 10 → r * 10 ≤ 1 → throttle_taper r = r * 10) ∧
    (1 ≤ r → throttle_taper r = 1) ∧
    (r ≤ r' → throttle_taper r ≤ throttle_taper r') ∧
    throttle_manager mt dv l = mt * throttle_taper (l / dv) ∧
    (¬ 20 < env.error k →
      (burn_loop_go env dvq (fuel + 1) k b).head? =
        some (Cmd.setThrottle
          (throttle_manager (env.max_throttle_q k) dvq (env.dV_left k)))) := by
  refine ⟨⟨?_, ?_⟩, ?_, ?_, ?_, rfl, ?_⟩
  · rw [throttle_taper_eq]
    exact le_max_left _ _
  · rw [throttle_taper_eq]
    exact max_le (by norm_num) (min_le_left _ _)
  · intro h1 h2
    rw [throttle_taper_eq, min_eq_right h2, max_eq_right h1]
  · intro h
    rw [throttle_taper_eq, min_eq_left (by linarith), max_eq_right (by norm_num)]
  · intro h
    rw [throttle_taper_eq, throttle_taper_eq]
    exact max_le_max le_rfl (min_le_min le_rfl (by linarith))
  · intro h
    simp only [burn_loop_go]
    rw [if_neg (by simp [is_burn_complete, h])]
    rfl

/-- Witness for C7 at ratio 0.07 (inside the linear zone), ratio 2
(above 1), a monotonicity pair, and the first commanded throttle of a
clean burn-loop iteration. -/
theorem c7_throttle_taper_witness :
    throttle_taper (7 / 100) = 7 / 100 * 10 ∧
    throttle_taper 2 = 1 ∧
    throttle_taper (1 / 100) ≤ throttle_taper (7 / 100) ∧
    (burn_loop_go envPerfect 10 1 0 100).head? =
      some (Cmd.setThrottle
        (throttle_manager (envPerfect.max_throttle_q 0) 10
          (envPerfect.dV_left 0))) :=
  ⟨(c7_throttle_taper (7 / 100) 0 0 0 0 0 0 envPerfect 0 0).2.1
      (by norm_num) (by norm_num),
   (c7_throttle_taper 2 0 0 0 0 0 0 envPerfect 0 0).2.2.1 (by norm_num),
   (c7_throttle_taper (1 / 100) (7 / 100) 0 0 0 0 0 envPerfect 0 0).2.2.2.1
      (by norm_num),
   (c7_throttle_taper 0 0 0 0 0 10 100 envPerfect 0 0).2.2.2.2.2
      (by simp [envPerfect])⟩

/-- The auto-stage step never closes a telemetry stream. -/
theorem closeStream_not_mem_auto_stage (s : String) (a b c d : ℚ) :
    Cmd.closeStream s ∉ (auto_stage a b c d).2 := by
  simp only [auto_stage]
  split <;> split <;> simp

/-- The exit commands appear in the burn-loop trace exactly when some
polled attitude-error reading within the run exceeds 20 degrees. -/
theorem burn_loop_exit_mem_iff (env : Env) (dv : ℚ) (fuel k : ℕ) (b : ℚ) :
    Cmd.closeStream "error" ∈ burn_loop_go env dv fuel k b ↔
      ∃ j, k ≤ j ∧ j < k + fuel ∧ 20 < env.error j := by
  induction fuel generalizing k b with
  | zero =>
      simp only [burn_loop_go, List.not_mem_nil, false_iff, not_exists]
      intro j h
      omega
  | succ n ih =>
      simp only [burn_loop_go]
      by_cases hb : is_burn_complete (env.error k) = true
      · have h20 : 20 < env.error k := by simpa [is_burn_complete] using hb
        rw [if_pos hb]
        constructor
        · intro _
          exact ⟨k, le_rfl, by omega, h20⟩
        · intro _
          simp
      · have h20 : ¬ 20 < env.error k := by simpa [is_burn_complete] using hb
        rw [if_neg hb]
        have hstage := closeStream_not_mem_auto_stage "error" b
          (env.thrust_read k) (env.thrust_post k)
          (throttle_manager (env.max_throttle_q k) dv (env.dV_left k))
        simp only [List.mem_cons, List.mem_append, ih]
        constructor
        · rintro (hc | hc | hc | ⟨j, hj1, hj2, hj3⟩)
          · simp at hc
          · exact absurd hc hstage
          · simp at hc
          · exact ⟨j, by omega, by omega, hj3⟩
        · rintro ⟨j, hj1, hj2, hj3⟩
          have hjk : j ≠ k := by
            intro he
            exact h20 (he ▸ hj3)
          exact Or.inr (Or.inr (Or.inr ⟨j, by omega, by omega, hj3⟩))

/-- C1 counterexample: a run with perfect attitude (error stream
constantly 0) whose remaining delta-v is exactly 0 from iteration 1 on.
The claim's exit condition would make iteration 1 the last one, but the
burn loop issues no exit commands (no stream close) in any of the first
six iterations: remaining delta-v is not consulted by
`_is_burn_complete`. -/
theorem c1_counterexample :
    envPerfect.dV_left 1 = 0 ∧ envPerfect.error 1 ≤ 20 ∧
    Cmd.closeStream "error" ∉ burn_loop_go envPerfect 10 6 0 100 := by
  refine ⟨rfl, by norm_num [envPerfect], ?_⟩
  rw [burn_loop_exit_mem_iff]
  rintro ⟨j, _, _, hj⟩
  have he : envPerfect.error j = 0 := rfl
  rw [he] at hj
  exact absurd hj (by norm_num)

/-- C1 amended: an iteration of the burn loop is the last one exactly
when its check finds the attitude error above 20 degrees; the remaining
delta-v plays no role in the exit decision (the exit commands appear in
the trace if and only if some polled error reading within the run
exceeds 20, and a run whose error stays at or below 20 never exits even
when the remaining delta-v has decayed to zero). -/
theorem c1_burn_loop_exit_iff (env : Env) (dv : ℚ) (fuel k : ℕ) (b : ℚ) :
    Cmd.closeStream "error" ∈ burn_loop_go env dv fuel k b ↔
      ∃ j, k ≤ j ∧ j < k + fuel ∧ 20 < env.error j :=
  burn_loop_exit_mem_iff env dv fuel k b

/-- C4 counterexample: on a burn-loop exit (attitude error 30 at the
first check) the commands after the loop body stops are the two stream
closes and then the throttle-zero write; in particular the first action
after the loop is not the throttle write, which happens after the
telemetry subscriptions are closed, not before. -/
theorem c4_counterexample :
    burn_loop_go envAbort 10 1 0 100 =
      [Cmd.closeStream "remaining_delta_v", Cmd.closeStream "error",
       Cmd.setThrottle 0] ∧
    (burn_loop_go envAbort 10 1 0 100).head? ≠ some (Cmd.setThrottle 0) := by
  decide

/-- C4 amended: on every exit of the burn loop the trailing commands
are, in order: close the remaining-delta-v subscription, close the
attitude-error subscription, and then an unconditional throttle-zero
write; no subscription is closed earlier in the run.  (The zeroing is
unconditional but happens after the subscriptions are closed, not
before.) -/
theorem c4_trace_suffix (env : Env) (dv : ℚ) (fuel k : ℕ) (b : ℚ)
    (h : Cmd.closeStream "error" ∈ burn_loop_go env dv fuel k b) :
    ∃ pre, burn_loop_go env dv fuel k b =
        pre ++ [Cmd.closeStream "remaining_delta_v", Cmd.closeStream "error",
          Cmd.setThrottle 0] ∧
      ∀ s, Cmd.closeStream s ∉ pre := by
  revert h
  induction fuel generalizing k b with
  | zero =>
      intro h
      simp [burn_loop_go] at h
  | succ n ih =>
      intro h
      simp only [burn_loop_go] at h ⊢
      by_cases hb : is_burn_complete (env.error k) = true
      · rw [if_pos hb]
        exact ⟨[], rfl, by simp⟩
      · rw [if_neg hb] at h ⊢
        have hmem : Cmd.closeStream "error" ∈ burn_loop_go env dv n (k + 1)
            (auto_stage b (env.thrust_read k) (env.thrust_post k)
              (throttle_manager (env.max_throttle_q k) dv (env.dV_left k))).1 := by
          rcases List.mem_cons.mp h with hc | hc
          · exact absurd hc (by simp)
          rcases List.mem_append.mp hc with hc2 | hc2
          · exact absurd hc2 (closeStream_not_mem_auto_stage _ _ _ _ _)
          rcases List.mem_cons.mp hc2 with hc3 | hc3
          · exact absurd hc3 (by simp)
          · exact hc3
        obtain ⟨pre, hpre, hnc⟩ := ih (k + 1) _ hmem
        refine ⟨Cmd.setThrottle
            (throttle_manager (env.max_throttle_q k) dv (env.dV_left k)) ::
            ((auto_stage b (env.thrust_read k) (env.thrust_post k)
              (throttle_manager (env.max_throttle_q k) dv (env.dV_left k))).2 ++
              Cmd.sleepAction 0.01 :: pre), ?_, ?_⟩
        · rw [hpre]
          simp [List.cons_append, List.append_assoc]
        · intro s
          simp only [List.mem_cons, List.mem_append]
          rintro (hc | hc | hc | hc)
          · simp at hc
          · exact closeStream_not_mem_auto_stage s _ _ _ _ hc
          · simp at hc
          · exact hnc s hc

/-- Witness for C4 amended: the aborting run exits at its first check
and its trace is the exit suffix itself. -/
theorem c4_trace_suffix_witness :
    Cmd.closeStream "error" ∈ burn_loop_go envAbort 10 1 0 100 ∧
    ∃ pre, burn_loop_go envAbort 10 1 0 100 =
        pre ++ [Cmd.closeStream "remaining_delta_v", Cmd.closeStream "error",
          Cmd.setThrottle 0] ∧
      ∀ s, Cmd.closeStream s ∉ pre :=
  ⟨by decide, c4_trace_suffix envAbort 10 1 0 100 (by decide)⟩

/-- C8: when the available thrust has dropped by more than 10% relative
to the recorded baseline, `_auto_stage` issues exactly one staging
command, with the throttle written to 0 and then restored to the
pre-staging value, and the returned baseline is the new available-thrust
reading; when the drop is 10% or less no staging command is issued and
the throttle is untouched. -/
theorem c8_auto_stage (ot tn ta th : ℚ) (hot : 0 < ot) (hth : 0 < th) :
    (tn < 0.9 * ot →
      (auto_stage ot tn ta th).2 =
        [Cmd.setThrottle 0, Cmd.sleepAction 0.1, Cmd.stageAction,
         Cmd.printEvent "Staged", Cmd.sleepAction 0.1, Cmd.setThrottle th] ∧
      (auto_stage ot tn ta th).2.count Cmd.stageAction = 1 ∧
      (auto_stage ot tn ta th).1 = ta) ∧
    (0.9 * ot ≤ tn →
      (auto_stage ot tn ta th).2 = [] ∧ (auto_stage ot tn ta th).1 = ta) := by
  have hr : (if ot = 0 then (1 : ℚ) else tn / ot) = tn / ot :=
    if_neg (ne_of_gt hot)
  constructor
  · intro hdrop
    have hlt : tn / ot < 0.9 := (div_lt_iff₀ hot).mpr (by linarith)
    simp only [auto_stage, hr, if_pos hlt]
    refine ⟨trivial, ?_, trivial⟩
    simp [List.count_cons]
  · intro hkeep
    have hge : ¬ tn / ot < 0.9 :=
      not_lt.mpr ((le_div_iff₀ hot).mpr (by linarith))
    simp only [auto_stage, hr, if_neg hge]
    exact ⟨trivial, trivial⟩

/-- Witness for C8: thrust drops from 100 to 50 (more than 10%) with
throttle 1, and thrust holding at 95 (within 10%). -/
theorem c8_auto_stage_witness :
    (auto_stage 100 50 50 1).2 =
      [Cmd.setThrottle 0, Cmd.sleepAction 0.1, Cmd.stageAction,
       Cmd.printEvent "Staged", Cmd.sleepAction 0.1, Cmd.setThrottle 1] ∧
    (auto_stage 100 50 50 1).2.count Cmd.stageAction = 1 ∧
    (auto_stage 100 50 50 1).1 = 50 ∧
    (auto_stage 100 95 95 1).2 = [] :=
  ⟨((c8_auto_stage 100 50 50 1 (by norm_num) (by norm_num)).1
      (by norm_num)).1,
   ((c8_auto_stage 100 50 50 1 (by norm_num) (by norm_num)).1
      (by norm_num)).2.1,
   ((c8_auto_stage 100 50 50 1 (by norm_num) (by norm_num)).1
      (by norm_num)).2.2,
   ((c8_auto_stage 100 95 95 1 (by norm_num) (by norm_num)).2
      (by norm_num)).1⟩

/-- C3 counterexample: with no maneuver node, `execute_node` issues no
command but raises an `AttributeError` (dereferencing `node.ut` on
`None` while formatting the alignment message), rather than returning
without error. -/
theorem c3_counterexample :
    execute_node envNoNode = ([], Except.error "AttributeError") :=
  rfl

/-- C3 amended: with no maneuver node, `execute_node` is command-free
(it issues no attitude, warp, throttle, or staging command) but it does
raise: the alignment message formatting dereferences the missing node
and raises `AttributeError`; `has_node` is the guard (false exactly in
this state) that callers use to make repetition safe. -/
theorem c3_no_node_raises (env : Env) (h : env.nodes = []) :
    execute_node env = ([], Except.error "AttributeError") ∧
    has_node env.nodes = false := by
  have hn : node? env.nodes = none := by
    rw [h]
    rfl
  constructor
  · simp only [execute_node, approach, approach_margins, approach_step,
      align_to_burn, hn]
  · simp [has_node, hn]

/-- Witness for C3 amended at the concrete no-node environment. -/
theorem c3_no_node_raises_witness :
    envNoNode.nodes = [] ∧
    execute_node envNoNode = ([], Except.error "AttributeError") ∧
    has_node envNoNode.nodes = false :=
  ⟨rfl, (c3_no_node_raises envNoNode rfl).1, (c3_no_node_raises envNoNode rfl).2⟩

/-- C5: the burn plan invariants: `maximum_throttle` is
`min 1 (burn_time_at_max_thrust / minimum_burn_time)` whenever the
minimum burn time is positive and 1 when it is zero; the effective burn
time is the maximum of the max-thrust duration and the minimum; and the
burn start time puts the node's instant at the midpoint of the burn. -/
theorem c5_burn_plan (s : NodeExecutor) :
    (0 < s.minimum_burn_time →
      maximum_throttle s =
        min 1 (burn_time_at_max_thrust s / s.minimum_burn_time)) ∧
    (s.minimum_burn_time = 0 → maximum_throttle s = 1) ∧
    burn_time s = max (burn_time_at_max_thrust s) s.minimum_burn_time ∧
    burn_ut s = s.node_ut - burn_time s / 2 ∧
    burn_ut s + burn_time s / 2 = s.node_ut := by
  refine ⟨?_, ?_, rfl, rfl, ?_⟩
  · intro h
    rw [maximum_throttle, if_neg (ne_of_gt h)]
  · intro h
    rw [maximum_throttle, if_pos h]
  · rw [burn_ut]
    ring

/-- Witness for C5 at the test-corpus state (minimum burn time 4). -/
theorem c5_burn_plan_witness :
    0 < sTest.minimum_burn_time ∧
    maximum_throttle sTest =
      min 1 (burn_time_at_max_thrust sTest / sTest.minimum_burn_time) ∧
    burn_ut sTest + burn_time sTest / 2 = sTest.node_ut :=
  ⟨by norm_num [sTest], (c5_burn_plan sTest).1 (by norm_num [sTest]),
   (c5_burn_plan sTest).2.2.2.2⟩

/-- The rocket-equation burn duration is non-negative for positive
thrust, specific impulse and mass and non-negative delta-v. -/
theorem burn_time_at_max_thrust_nonneg (s : NodeExecutor)
    (hF : 0 < s.available_thrust) (hI : 0 < s.specific_impulse)
    (hm : 0 < s.mass) (hdv : 0 ≤ s.node_delta_v) :
    0 ≤ burn_time_at_max_thrust s := by
  have hc : (0 : ℝ) < s.specific_impulse * 9.82 := by positivity
  have hE : 1 ≤ Real.exp (s.node_delta_v / (s.specific_impulse * 9.82)) :=
    Real.one_le_exp (div_nonneg hdv (le_of_lt hc))
  simp only [burn_time_at_max_thrust]
  apply div_nonneg
  · have hle : s.mass / Real.exp (s.node_delta_v / (s.specific_impulse * 9.82)) ≤
        s.mass := div_le_self (le_of_lt hm) hE
    linarith
  · exact le_of_lt (div_pos hF hc)

/-- The rocket-equation burn duration is positive for positive delta-v. -/
theorem burn_time_at_max_thrust_pos (s : NodeExecutor)
    (hF : 0 < s.available_thrust) (hI : 0 < s.specific_impulse)
    (hm : 0 < s.mass) (hdv : 0 < s.node_delta_v) :
    0 < burn_time_at_max_thrust s := by
  have hc : (0 : ℝ) < s.specific_impulse * 9.82 := by positivity
  have hE : 1 < Real.exp (s.node_delta_v / (s.specific_impulse * 9.82)) :=
    Real.one_lt_exp_iff.mpr (div_pos hdv hc)
  simp only [burn_time_at_max_thrust]
  apply div_pos
  · have hlt : s.mass / Real.exp (s.node_delta_v / (s.specific_impulse * 9.82)) <
        s.mass := div_lt_self hm hE
    linarith
  · exact div_pos hF hc

/-- C6 counterexample: at the test-corpus state with a zero delta-v
node, `maximum_throttle` evaluates to 0, not to a strictly positive
value. -/
theorem c6_counterexample :
    maximum_throttle sZeroDv = 0 ∧ ¬ 0 < maximum_throttle sZeroDv := by
  have ht : burn_time_at_max_thrust sZeroDv = 0 := by
    simp only [burn_time_at_max_thrust, sZeroDv]
    norm_num
  have hmt : maximum_throttle sZeroDv = 0 := by
    rw [maximum_throttle,
      if_neg (by norm_num [sZeroDv] : ¬ sZeroDv.minimum_burn_time = 0), ht]
    norm_num [sZeroDv]
  exact ⟨hmt, by rw [hmt]; norm_num⟩

/-- C6 amended: for positive thrust, specific impulse and mass,
non-negative delta-v and non-negative minimum burn time,
`maximum_throttle` lies in `[0, 1]` (it is 0 when delta-v is 0, strictly
positive whenever delta-v is positive); the effective burn time is at
least the max-thrust duration; and the effective burn time equals the
minimum burn time whenever the latter exceeds the former. -/
theorem c6_amended (s : NodeExecutor) (hF : 0 < s.available_thrust)
    (hI : 0 < s.specific_impulse) (hm : 0 < s.mass)
    (hdv : 0 ≤ s.node_delta_v) (hmin : 0 ≤ s.minimum_burn_time) :
    (0 ≤ maximum_throttle s ∧ maximum_throttle s ≤ 1) ∧
    (0 < s.node_delta_v → 0 < maximum_throttle s) ∧
    burn_time_at_max_thrust s ≤ burn_time s ∧
    (burn_time_at_max_thrust s < s.minimum_burn_time →
      burn_time s = s.minimum_burn_time) := by
  have ht0 : 0 ≤ burn_time_at_max_thrust s :=
    burn_time_at_max_thrust_nonneg s hF hI hm hdv
  by_cases hmb : s.minimum_burn_time = 0
  · refine ⟨?_, ?_, le_max_left _ _, fun h => max_eq_right (le_of_lt h)⟩
    · rw [maximum_throttle, if_pos hmb]
      norm_num
    · intro _
      rw [maximum_throttle, if_pos hmb]
      norm_num
  · have hmbpos : 0 < s.minimum_burn_time := lt_of_le_of_ne hmin (Ne.symm hmb)
    rw [maximum_throttle, if_neg hmb]
    refine ⟨⟨le_min (by norm_num) (div_nonneg ht0 (le_of_lt hmbpos)),
      min_le_left _ _⟩, ?_, le_max_left _ _,
      fun h => max_eq_right (le_of_lt h)⟩
    intro hdvpos
    exact lt_min one_pos
      (div_pos (burn_time_at_max_thrust_pos s hF hI hm hdvpos) hmbpos)

/-- Witness for C6 amended at the test-corpus state. -/
theorem c6_amended_witness :
    0 < sTest.available_thrust ∧ 0 < sTest.node_delta_v ∧
    (0 ≤ maximum_throttle sTest ∧ maximum_throttle sTest ≤ 1) ∧
    0 < maximum_throttle sTest ∧
    burn_time_at_max_thrust sTest ≤ burn_time sTest :=
  ⟨by norm_num [sTest], by norm_num [sTest],
   (c6_amended sTest (by norm_num [sTest]) (by norm_num [sTest])
      (by norm_num [sTest]) (by norm_num [sTest]) (by norm_num [sTest])).1,
   (c6_amended sTest (by norm_num [sTest]) (by norm_num [sTest])
      (by norm_num [sTest]) (by norm_num [sTest]) (by norm_num [sTest])).2.1
      (by norm_num [sTest]),
   (c6_amended sTest (by norm_num [sTest]) (by norm_num [sTest])
      (by norm_num [sTest]) (by norm_num [sTest]) (by norm_num [sTest])).2.2.1⟩

/-- C9: the rocket-equation burn duration at max thrust is monotonically
non-decreasing in delta-v and in mass, and non-increasing in thrust, for
positive thrust, specific impulse and mass and non-negative delta-v. -/
theorem c9_monotone (F F' Isp m m' dv dv' u b : ℝ)
    (hF : 0 < F) (hFF : F ≤ F') (hIsp : 0 < Isp)
    (hm : 0 < m) (hmm : m ≤ m') (hdv : 0 ≤ dv) (hdvv : dv ≤ dv') :
    burn_time_at_max_thrust ⟨F, Isp, m, dv, u, b⟩ ≤
      burn_time_at_max_thrust ⟨F, Isp, m, dv', u, b⟩ ∧
    burn_time_at_max_thrust ⟨F, Isp, m, dv, u, b⟩ ≤
      burn_time_at_max_thrust ⟨F, Isp, m', dv, u, b⟩ ∧
    burn_time_at_max_thrust ⟨F', Isp, m, dv, u, b⟩ ≤
      burn_time_at_max_thrust ⟨F, Isp, m, dv, u, b⟩ := by
  have hc : (0 : ℝ) < Isp * 9.82 := by positivity
  have hE1 : 1 ≤ Real.exp (dv / (Isp * 9.82)) :=
    Real.one_le_exp (div_nonneg hdv (le_of_lt hc))
  have hnum : 0 ≤ m - m / Real.exp (dv / (Isp * 9.82)) := by
    have hle : m / Real.exp (dv / (Isp * 9.82)) ≤ m :=
      div_le_self (le_of_lt hm) hE1
    linarith
  simp only [burn_time_at_max_thrust]
  refine ⟨?_, ?_, ?_⟩
  · apply div_le_div_of_nonneg_right ?_ (le_of_lt (div_pos hF hc))
    have hEE : Real.exp (dv / (Isp * 9.82)) ≤ Real.exp (dv' / (Isp * 9.82)) :=
      Real.exp_le_exp.mpr (div_le_div_of_nonneg_right hdvv (le_of_lt hc))
    have hdd : m / Real.exp (dv' / (Isp * 9.82)) ≤
        m / Real.exp (dv / (Isp * 9.82)) :=
      div_le_div_of_nonneg_left (le_of_lt hm) (Real.exp_pos _) hEE
    linarith
  · apply div_le_div_of_nonneg_right ?_ (le_of_lt (div_pos hF hc))
    have hfac : ∀ x : ℝ, x - x / Real.exp (dv / (Isp * 9.82)) =
        x * (1 - (Real.exp (dv / (Isp * 9.82)))⁻¹) := by
      intro x
      rw [div_eq_mul_inv]
      ring
    rw [hfac m, hfac m']
    apply mul_le_mul_of_nonneg_right hmm
    have hinv : (Real.exp (dv / (Isp * 9.82)))⁻¹ ≤ 1 :=
      inv_le_one_of_one_le₀ hE1
    linarith
  · exact div_le_div_of_nonneg_left hnum (div_pos hF hc)
      (div_le_div_of_nonneg_right hFF (le_of_lt hc))

/-- Witness for C9 at thrust 1 ≤ 2, mass 1 ≤ 2, delta-v 0 ≤ 1, specific
impulse 1. -/
theorem c9_monotone_witness :
    (0 : ℝ) < 1 ∧ (1 : ℝ) ≤ 2 ∧ (0 : ℝ) ≤ 0 ∧ (0 : ℝ) ≤ 1 ∧
    burn_time_at_max_thrust ⟨1, 1, 1, 0, 0, 0⟩ ≤
      burn_time_at_max_thrust ⟨1, 1, 1, 1, 0, 0⟩ ∧
    burn_time_at_max_thrust ⟨1, 1, 1, 0, 0, 0⟩ ≤
      burn_time_at_max_thrust ⟨1, 1, 2, 0, 0, 0⟩ ∧
    burn_time_at_max_thrust ⟨2, 1, 1, 0, 0, 0⟩ ≤
      burn_time_at_max_thrust ⟨1, 1, 1, 0, 0, 0⟩ :=
  ⟨by norm_num, by norm_num, le_rfl, by norm_num,
   c9_monotone 1 2 1 1 2 0 1 0 0 (by norm_num) (by norm_num) (by norm_num)
     (by norm_num) (by norm_num) le_rfl (by norm_num)⟩

/-- A checked division by a non-zero divisor succeeds. -/
theorem checkedDiv_of_ne (a b : ℝ) (h : ¬ b = 0) :
    checkedDiv a b = Except.ok (a / b) :=
  if_neg h

/-- A checked division by zero raises `ZeroDivisionError`. -/
theorem checkedDiv_zero (a : ℝ) :
    checkedDiv a 0 = Except.error "ZeroDivisionError" :=
  if_pos rfl

/-- With zero available thrust or zero specific impulse, the rocket
equation computation raises `ZeroDivisionError` (at the `delta_v / Isp`
division for zero specific impulse, at the `(m0 - m1) / flow_rate`
division for zero thrust). -/
theorem burn_time_checked_error (s : NodeExecutor)
    (h : s.available_thrust = 0 ∨ s.specific_impulse = 0) :
    burn_time_at_max_thrust_checked s = Except.error "ZeroDivisionError" := by
  by_cases hI : s.specific_impulse = 0
  · have hc : s.specific_impulse * 9.82 = 0 := by
      rw [hI]
      ring
    simp only [burn_time_at_max_thrust_checked, hc, checkedDiv_zero]
  · have hI9 : ¬ s.specific_impulse * 9.82 = 0 :=
      mul_ne_zero hI (by norm_num)
    have hF : s.available_thrust = 0 := h.resolve_right hI
    simp only [burn_time_at_max_thrust_checked, checkedDiv_of_ne _ _ hI9,
      checkedDiv_of_ne _ _ (Real.exp_ne_zero _), hF, zero_div,
      checkedDiv_zero]

/-- With zero available thrust or zero specific impulse (and a non-zero
node delta-v and minimum burn time, as after construction), the throttle
manager raises `ZeroDivisionError` through its `maximum_throttle`
evaluation instead of skipping the sample. -/
theorem throttle_manager_checked_error (s : NodeExecutor) (dVl : ℝ)
    (h : s.available_thrust = 0 ∨ s.specific_impulse = 0)
    (hdv : ¬ s.node_delta_v = 0) (hmin : ¬ s.minimum_burn_time = 0) :
    throttle_manager_checked s dVl = Except.error "ZeroDivisionError" := by
  simp only [throttle_manager_checked, checkedDiv_of_ne _ _ hdv,
    maximum_throttle_checked, if_neg hmin, burn_time_checked_error s h]

/-- C2 counterexample: at the test-corpus state with the available
thrust reading zero, the burn-loop throttle computation raises
`ZeroDivisionError` for that iteration instead of skipping it. -/
theorem c2_counterexample :
    throttle_manager_checked sZeroThrust 5 =
      Except.error "ZeroDivisionError" :=
  throttle_manager_checked_error sZeroThrust 5 (Or.inl rfl)
    (by norm_num [sZeroThrust]) (by norm_num [sZeroThrust])

/-- C2 amended: a zero available-thrust or zero specific-impulse reading
makes the throttle computation of a burn-loop iteration raise
`ZeroDivisionError` (it is not skipped); the only division-by-zero guard
in the loop is the auto-stage baseline ratio, where a zero recorded
baseline forces the ratio to 1 so that no staging command is issued and
the baseline is simply refreshed. -/
theorem c2_amended (s : NodeExecutor) (dVl : ℝ)
    (h : s.available_thrust = 0 ∨ s.specific_impulse = 0)
    (hdv : ¬ s.node_delta_v = 0) (hmin : ¬ s.minimum_burn_time = 0) :
    throttle_manager_checked s dVl = Except.error "ZeroDivisionError" ∧
    ∀ tn ta th : ℚ,
      (auto_stage 0 tn ta th).2 = [] ∧ (auto_stage 0 tn ta th).1 = ta := by
  refine ⟨throttle_manager_checked_error s dVl h hdv hmin, ?_⟩
  intro tn ta th
  constructor
  · norm_num [auto_stage]
  · norm_num [auto_stage]

/-- Witness for C2 amended at the zero-thrust test state and a zero
auto-stage baseline. -/
theorem c2_amended_witness :
    (sZeroThrust.available_thrust = 0 ∨ sZeroThrust.specific_impulse = 0) ∧
    throttle_manager_checked sZeroThrust 5 =
      Except.error "ZeroDivisionError" ∧
    (auto_stage 0 50 50 1).2 = [] :=
  ⟨Or.inl rfl,
   (c2_amended sZeroThrust 5 (Or.inl rfl) (by norm_num [sZeroThrust])
      (by norm_num [sZeroThrust])).1,
   ((c2_amended sZeroThrust 5 (Or.inl rfl) (by norm_num [sZeroThrust])
      (by norm_num [sZeroThrust])).2 50 50 1).1⟩
